import Mathlib

/-
Verification of the event pipeline in consulting-crm-analytics
(src/events/tasks.py, src/events/models.py), as a shallow embedding.

Conventions of the embedding:
- timestamps and dates are abstract naturals / a (year, month, day) record;
- Decimal money values are integers;
- database tables are lists of rows; unique constraints from models.py are
  enforced by the embedded create operations (an IntegrityError is modelled
  as an error outcome);
- an exception raised inside the transactional body of process_event is
  modelled by an explicit fault parameter telling at which statement the
  exception fires; transaction.atomic gives rollback semantics: database
  writes survive only on success, while external S3 writes already performed
  survive in every case;
- Celery .delay / self.retry are asynchronous: they append to a dispatched /
  scheduled queue instead of running the task.
-/

namespace CRM

/-- Calendar date (year, month, day) used as the key of daily metric rows. -/
structure Date where
  year : Nat
  month : Nat
  day : Nat
deriving DecidableEq, Repr

/-- Subset of the event payload fields that the aggregation handlers read
via payload.get in src/events/tasks.py. -/
structure Payload where
  lead_status : Option String := none
  estimated_value : Option Int := none
  account_id : Option String := none
  contract_value : Option Int := none
deriving DecidableEq, Repr

/-- Arguments of one process_event invocation (one logical event). -/
structure Event where
  event_id : String
  event_type : String
  aggregate_type : String
  aggregate_id : String
  payload : Payload
deriving DecidableEq, Repr

/-- Row of the event_outbox table (models the columns used by
poll_event_outbox in src/events/tasks.py). -/
structure OutboxRecord where
  id : Nat
  event_id : String
  event_type : String
  aggregate_type : String
  aggregate_id : String
  payload : Payload
  created_at : Nat
  retry_count : Nat
  processed_at : Option Nat := none
  published_at : Option Nat := none
  last_error : Option String := none
deriving DecidableEq, Repr

/-- Row of processed_events (ProcessedEvent in src/events/models.py;
event_id carries unique=True). -/
structure ProcessedEvent where
  event_id : String
  event_type : String
  aggregate_type : String
  aggregate_id : String
deriving DecidableEq, Repr

/-- Row of failed_events (FailedEvent in src/events/models.py; event_id
carries unique=True, with no restriction to unresolved rows). -/
structure FailedEvent where
  id : Nat
  event_id : String
  event_type : String
  aggregate_type : String
  aggregate_id : String
  payload : Payload
  error_message : String
  error_trace : String
  retry_count : Nat
  resolved_at : Option Nat := none
  resolved_by : Option String := none
deriving DecidableEq, Repr

/-- Row of event_counts (EventCount in src/events/models.py). -/
structure EventCount where
  date : Date
  event_type : String
  aggregate_type : String
  count : Nat
deriving DecidableEq, Repr

/-- Row of lead_funnel_metrics (LeadFunnelMetric in src/events/models.py). -/
structure LeadFunnelMetric where
  date : Date
  new_leads : Nat := 0
  contacted_leads : Nat := 0
  qualified_leads : Nat := 0
  won_leads : Nat := 0
  lost_leads : Nat := 0
  total_estimated_value : Int := 0
  won_value : Int := 0
  lost_value : Int := 0
deriving DecidableEq, Repr

/-- Row of revenue_metrics (RevenueMetric in src/events/models.py). -/
structure RevenueMetric where
  month : Date
  account_id : String
  contracted_value : Int
  projects_count : Nat
deriving DecidableEq, Repr

/-- One object written to the S3 archive by _archive_to_s3: the key is
determined by (year, month, day, aggregate_type, event_id). -/
structure ArchiveObj where
  year : Nat
  month : Nat
  day : Nat
  aggregate_type : String
  event_id : String
  event_type : String
  aggregate_id : String
  payload : Payload
deriving DecidableEq, Repr

/-- The relational store: every table the pipeline reads or writes. -/
structure DB where
  outbox : List OutboxRecord := []
  processed : List ProcessedEvent := []
  failed : List FailedEvent := []
  eventCounts : List EventCount := []
  leadFunnel : List LeadFunnelMetric := []
  revenue : List RevenueMetric := []
deriving DecidableEq, Repr

/-- Whole-system state: database plus the external effects of one run
(S3 objects, alert-hook invocations, asynchronously dispatched tasks and
scheduled retries). -/
structure SysState where
  db : DB := {}
  s3 : List ArchiveObj := []
  alerts : List (String × String × String) := []
  dispatched : List (Event × Nat) := []
  scheduled : List (Event × Nat × Nat) := []
deriving DecidableEq, Repr

/-- Django settings consumed by the tasks (EVENT_BATCH_SIZE, SQS_QUEUE_URL,
S3_BUCKET_NAME, AWS_REGION). -/
structure Config where
  event_batch_size : Nat
  sqs_queue_url : Option String := none
  s3_bucket_name : Option String := none
  aws_region : String := "us-east-1"
deriving DecidableEq, Repr

/-- MAX_RETRIES from src/events/tasks.py. -/
def MAX_RETRIES : Nat := 3

/-- RETRY_BACKOFF_SECONDS from src/events/tasks.py. -/
def RETRY_BACKOFF_SECONDS : List Nat := [60, 300, 900]

/-- Python substring membership, needle in hay, used by the leads handler. -/
def strIn (needle hay : String) : Bool :=
  hay.data.tails.any (fun t => needle.data.isPrefixOf t)

/-- Does an EventCount row match the (date, event_type, aggregate_type) key. -/
def ecMatches (d : Date) (et aggTy : String) (c : EventCount) : Bool :=
  c.date == d && c.event_type == et && c.aggregate_type == aggTy

/-- EventCount.objects.get_or_create with count defaulting to 0, followed by
count = F(count) + 1 and save (src/events/tasks.py, lines 151-158). -/
def incEventCount (today : Date) (et aggTy : String) (db : DB) : DB :=
  if db.eventCounts.any (ecMatches today et aggTy) then
    { db with eventCounts := db.eventCounts.map (fun c =>
        if ecMatches today et aggTy c then { c with count := c.count + 1 } else c) }
  else
    { db with eventCounts := db.eventCounts ++
        [{ date := today, event_type := et, aggregate_type := aggTy, count := 1 }] }

/-- Fresh LeadFunnelMetric row for a date, all counters at their defaults. -/
def defaultFunnel (d : Date) : LeadFunnelMetric := { date := d }

/-- Lookup of the LeadFunnelMetric row keyed by a date. -/
def findFunnel (db : DB) (d : Date) : Option LeadFunnelMetric :=
  db.leadFunnel.find? (fun m => m.date == d)

/-- Write back a LeadFunnelMetric row, inserting it when the date key is new
(get_or_create plus save). -/
def upsertFunnel (db : DB) (m : LeadFunnelMetric) : DB :=
  if db.leadFunnel.any (fun x => x.date == m.date) then
    { db with leadFunnel := db.leadFunnel.map (fun x => if x.date == m.date then m else x) }
  else
    { db with leadFunnel := db.leadFunnel ++ [m] }

/-- Embeds _process_lead_event (src/events/tasks.py, lines 231-255):
get_or_create the day row, then on an INSERT/UPDATE shaped event_type bump
the funnel counter matching lead_status, value totals included. -/
def process_lead_event (event_type : String) (p : Payload) (today : Date) (db : DB) : DB :=
  let lead_status := p.lead_status.getD "new"
  let estimated_value := p.estimated_value.getD 0
  let m := (findFunnel db today).getD (defaultFunnel today)
  let db1 := upsertFunnel db m
  if strIn "INSERT" event_type || strIn "UPDATE" event_type then
    let m1 :=
      if lead_status == "new" then { m with new_leads := m.new_leads + 1 }
      else if lead_status == "contacted" then { m with contacted_leads := m.contacted_leads + 1 }
      else if lead_status == "qualified" then { m with qualified_leads := m.qualified_leads + 1 }
      else if lead_status == "won" then
        { m with won_leads := m.won_leads + 1, won_value := m.won_value + estimated_value }
      else if lead_status == "lost" then
        { m with lost_leads := m.lost_leads + 1, lost_value := m.lost_value + estimated_value }
      else m
    let m2 := { m1 with total_estimated_value := m1.total_estimated_value + estimated_value }
    upsertFunnel db1 m2
  else db1

/-- update_or_create on RevenueMetric keyed by (month, account_id),
incrementing contracted_value and projects_count. -/
def upsertRevenue (db : DB) (monthStart : Date) (acct : String) (cv : Int) : DB :=
  if db.revenue.any (fun x => x.month == monthStart && x.account_id == acct) then
    { db with revenue := db.revenue.map (fun x =>
        if x.month == monthStart && x.account_id == acct then
          { x with contracted_value := x.contracted_value + cv,
                   projects_count := x.projects_count + 1 }
        else x) }
  else
    { db with revenue := db.revenue ++
        [{ month := monthStart, account_id := acct, contracted_value := cv, projects_count := 1 }] }

/-- Embeds _process_project_event (src/events/tasks.py, lines 264-282):
upsert revenue for the current month when account_id and contract_value are
both truthy. -/
def process_project_event (p : Payload) (today : Date) (db : DB) : DB :=
  let contract_value := p.contract_value.getD 0
  match p.account_id with
  | none => db
  | some acct =>
    if acct == "" || contract_value == 0 then db
    else upsertRevenue db { year := today.year, month := today.month, day := 1 } acct contract_value

/-- Handler dispatch on aggregate_type (src/events/tasks.py, lines 161-168);
accounts and activities handlers only log, and an unrecognized type matches
no handler. -/
def dispatchHandler (aggTy et : String) (p : Payload) (today : Date) (db : DB) : DB :=
  if aggTy == "leads" then process_lead_event et p today db
  else if aggTy == "accounts" then db
  else if aggTy == "projects" then process_project_event p today db
  else if aggTy == "activities" then db
  else db

/-- The archive object _archive_to_s3 would write for this event today. -/
def mkArchive (today : Date) (e : Event) : ArchiveObj :=
  { year := today.year, month := today.month, day := today.day,
    aggregate_type := e.aggregate_type, event_id := e.event_id,
    event_type := e.event_type, aggregate_id := e.aggregate_id,
    payload := e.payload }

/-- Embeds _archive_to_s3 (src/events/tasks.py, lines 294-323): archiveOk
models whether the S3 put succeeds; every exception is caught and swallowed,
so the function itself never raises. -/
def archive_to_s3 (archiveOk : Bool) (today : Date) (e : Event) (s3 : List ArchiveObj) :
    List ArchiveObj :=
  if archiveOk then s3 ++ [mkArchive today e] else s3

/-- Statement of the transactional body at which an injected exception
fires: at the EventCount write, inside the aggregation handler, or at the
ProcessedEvent ledger insert. -/
inductive FaultPoint where
  | atEventCount
  | atHandler
  | atLedger
deriving DecidableEq, Repr

/-- An exception injected into the transactional body: where it fires and
its message. -/
structure BodyFault where
  point : FaultPoint
  msg : String
deriving DecidableEq, Repr

/-- The ProcessedEvent row that process_event inserts for an event. -/
def mkProcessed (e : Event) : ProcessedEvent :=
  { event_id := e.event_id, event_type := e.event_type,
    aggregate_type := e.aggregate_type, aggregate_id := e.aggregate_id }

/-- The transactional body of process_event (the transaction.atomic block,
src/events/tasks.py, lines 145-183): EventCount increment, handler dispatch,
the _archive_to_s3 call (which in the source sits inside the block, between
the handler and the ledger insert), then the ProcessedEvent insert, whose
unique event_id constraint raises on a duplicate. Rollback semantics:
database writes are returned only on success, while the S3 effect performed
before the fault point is returned in every case. -/
def runBody (cfg : Config) (today : Date) (e : Event) (fault : Option BodyFault)
    (archiveOk : Bool) (db : DB) (s3 : List ArchiveObj) :
    List ArchiveObj × Except String DB :=
  match fault with
  | some ⟨FaultPoint.atEventCount, m⟩ => (s3, Except.error m)
  | some ⟨FaultPoint.atHandler, m⟩ => (s3, Except.error m)
  | some ⟨FaultPoint.atLedger, m⟩ =>
    let s3a := if cfg.s3_bucket_name.isSome then archive_to_s3 archiveOk today e s3 else s3
    (s3a, Except.error m)
  | none =>
    let db1 := incEventCount today e.event_type e.aggregate_type db
    let db2 := dispatchHandler e.aggregate_type e.event_type e.payload today db1
    let s3a := if cfg.s3_bucket_name.isSome then archive_to_s3 archiveOk today e s3 else s3
    if db2.processed.any (fun pr => pr.event_id == e.event_id) then
      (s3a, Except.error "IntegrityError duplicate event_id")
    else
      (s3a, Except.ok { db2 with processed := db2.processed ++ [mkProcessed e] })

/-- Outcome of one process_event invocation; raised means an exception
escaped the task itself. -/
inductive Outcome where
  | success
  | skipped_duplicate
  | retry_scheduled
  | dead_lettered
  | raised (msg : String)
deriving DecidableEq, Repr

/-- The FailedEvent row inserted by the dead-letter branch; the surrogate id
is the next free one, and retry_count stores the invocation's value. -/
def mkFailed (db : DB) (e : Event) (msg : String) (rc : Nat) : FailedEvent :=
  { id := db.failed.length, event_id := e.event_id, event_type := e.event_type,
    aggregate_type := e.aggregate_type, aggregate_id := e.aggregate_id,
    payload := e.payload, error_message := msg,
    error_trace := "Traceback " ++ msg, retry_count := rc }

/-- Embeds process_event (src/events/tasks.py, lines 124-228): idempotency
check, transactional body, retry with backoff while retry_count is below
MAX_RETRIES, otherwise dead-letter insert (whose unique event_id constraint
raises on a duplicate) plus the alert hook. -/
def process_event (cfg : Config) (today : Date) (e : Event) (retry_count : Nat)
    (fault : Option BodyFault) (archiveOk : Bool) (st : SysState) :
    SysState × Outcome :=
  if st.db.processed.any (fun pr => pr.event_id == e.event_id) then
    (st, Outcome.skipped_duplicate)
  else
    match runBody cfg today e fault archiveOk st.db st.s3 with
    | (s3a, Except.ok db1) => ({ st with db := db1, s3 := s3a }, Outcome.success)
    | (s3a, Except.error msg) =>
      if retry_count < MAX_RETRIES then
        ({ st with
             s3 := s3a,
             scheduled := st.scheduled ++
               [(e, retry_count + 1, RETRY_BACKOFF_SECONDS.getD retry_count 900)] },
         Outcome.retry_scheduled)
      else if st.db.failed.any (fun f => f.event_id == e.event_id) then
        ({ st with s3 := s3a }, Outcome.raised "IntegrityError duplicate failed event_id")
      else
        ({ st with
             s3 := s3a,
             db := { st.db with failed := st.db.failed ++ [mkFailed st.db e msg retry_count] },
             alerts := st.alerts ++ [(e.event_id, e.event_type, msg)] },
         Outcome.dead_lettered)

/-- The ORDER BY retry_count ASC, created_at ASC key of the outbox query. -/
def outboxLe (a b : OutboxRecord) : Prop :=
  a.retry_count < b.retry_count ∨
    (a.retry_count = b.retry_count ∧ a.created_at ≤ b.created_at)

instance : DecidableRel outboxLe := fun a b => by
  unfold outboxLe; exact inferInstance

instance : IsTotal OutboxRecord outboxLe :=
  ⟨fun a b => by unfold outboxLe; omega⟩

instance : IsTrans OutboxRecord outboxLe :=
  ⟨fun a b c => by unfold outboxLe; omega⟩

/-- The batch the poller claims: unprocessed rows, ordered by
(retry_count ASC, created_at ASC), limited to batch_size
(src/events/tasks.py, lines 39-49). -/
def claimBatch (outbox : List OutboxRecord) (batch_size : Nat) : List OutboxRecord :=
  (List.insertionSort outboxLe (outbox.filter (fun r => r.processed_at.isNone))).take batch_size

/-- The process_event argument tuple carried by an outbox row. -/
def eventOf (r : OutboxRecord) : Event :=
  { event_id := r.event_id, event_type := r.event_type,
    aggregate_type := r.aggregate_type, aggregate_id := r.aggregate_id,
    payload := r.payload }

/-- Embeds poll_event_outbox (src/events/tasks.py, lines 30-120): claim a
batch; on SQS publish failure (publishOk false with a queue configured) bump
retry_count and last_error on the claimed rows and return 0; otherwise stamp
processed_at and published_at and dispatch each row to process_event with
the row's own retry_count. -/
def poll_event_outbox (cfg : Config) (now : Nat) (publishOk : Bool) (err : String)
    (st : SysState) : SysState × Nat :=
  let events := claimBatch st.db.outbox cfg.event_batch_size
  if events.isEmpty then (st, 0)
  else if cfg.sqs_queue_url.isSome && !publishOk then
    let ids := events.map (fun r => r.id)
    ({ st with db := { st.db with outbox := st.db.outbox.map (fun r =>
        if ids.contains r.id then
          { r with retry_count := r.retry_count + 1, last_error := some err }
        else r) } }, 0)
  else
    let ids := events.map (fun r => r.id)
    ({ st with
         db := { st.db with outbox := st.db.outbox.map (fun r =>
           if ids.contains r.id then
             { r with processed_at := some now, published_at := some now }
           else r) },
         dispatched := st.dispatched ++ events.map (fun r => (eventOf r, r.retry_count)) },
     events.length)

/-- Outcome of replay_failed_event. -/
inductive ReplayOutcome where
  | replayed
  | not_found
deriving DecidableEq, Repr

/-- The process_event argument tuple replay passes for a FailedEvent. -/
def eventOfFailed (f : FailedEvent) : Event :=
  { event_id := f.event_id, event_type := f.event_type,
    aggregate_type := f.aggregate_type, aggregate_id := f.aggregate_id,
    payload := f.payload }

/-- Embeds replay_failed_event (src/events/tasks.py, lines 346-381): look up
the FailedEvent by surrogate id, delete the ProcessedEvent guard for its
event_id, dispatch reprocessing with retry_count 0, stamp resolved fields,
and keep the FailedEvent row. -/
def replay_failed_event (failed_event_id : Nat) (now : Nat) (st : SysState) :
    SysState × ReplayOutcome :=
  match st.db.failed.find? (fun f => f.id == failed_event_id) with
  | none => (st, ReplayOutcome.not_found)
  | some f =>
    let db1 := { st.db with
        processed := st.db.processed.filter (fun pr => pr.event_id != f.event_id) }
    let dispatched1 := st.dispatched ++ [(eventOfFailed f, 0)]
    let db2 := { db1 with failed := db1.failed.map (fun g =>
        if g.id == failed_event_id then
          { g with resolved_at := some now, resolved_by := some "manual_replay" }
        else g) }
    ({ st with db := db2, dispatched := dispatched1 }, ReplayOutcome.replayed)

/-- Celery retry chain for one always-failing event: run process_event, and
while it schedules a retry, run the scheduled re-invocation (retry_count
plus one), within a fuel bound. Returns the final state, the number of
retries that were scheduled, and the last outcome. -/
def simFail (cfg : Config) (today : Date) (e : Event) (fault : Option BodyFault)
    (archiveOk : Bool) : Nat → Nat → SysState → Option (SysState × Nat × Outcome)
  | 0, _, _ => none
  | fuel + 1, rc, st =>
    match process_event cfg today e rc fault archiveOk st with
    | (st1, Outcome.retry_scheduled) =>
      match simFail cfg today e fault archiveOk fuel (rc + 1) st1 with
      | some (st2, n, o) => some (st2, n + 1, o)
      | none => none
    | (st1, o) => some (st1, 0, o)

/-- Reference configuration: batch size 10, a queue and a bucket configured. -/
def cfg0 : Config :=
  { event_batch_size := 10, sqs_queue_url := some "q", s3_bucket_name := some "b" }

/-- Reference processing date. -/
def d0 : Date := { year := 2026, month := 10, day := 12 }

/-- Payload of the won-lead scenario: lead_status won, estimated_value 50000. -/
def pWon : Payload := { lead_status := some "won", estimated_value := some 50000 }

/-- The won-lead scenario event. -/
def eWon : Event :=
  { event_id := "evt-1", event_type := "INSERT_LEADS", aggregate_type := "leads",
    aggregate_id := "a1", payload := pWon }

/-- A FailedEvent row for event evt-1 that replay already resolved. -/
def fR9 : FailedEvent :=
  { id := 0, event_id := "evt-1", event_type := "INSERT_LEADS", aggregate_type := "leads",
    aggregate_id := "a1", payload := pWon, error_message := "boom",
    error_trace := "Traceback boom", retry_count := 3,
    resolved_at := some 50, resolved_by := some "manual_replay" }

/-- Store already holding the resolved FailedEvent for evt-1. -/
def stC9 : SysState := { db := { failed := [fR9] } }

/-- A failed event and its idempotency-guard row used by the C5 witness. -/
def fR5 : FailedEvent :=
  { id := 7, event_id := "evt-9", event_type := "UPDATE_LEADS", aggregate_type := "leads",
    aggregate_id := "a9", payload := {}, error_message := "oops",
    error_trace := "Traceback oops", retry_count := 3 }

/-- Store for the C5 witness: one failed event, its guard row present. -/
def stC5 : SysState :=
  { db := { failed := [fR5],
            processed := [{ event_id := "evt-9", event_type := "UPDATE_LEADS",
                            aggregate_type := "leads", aggregate_id := "a9" }] } }

/-- An outbox row already marked processed, for the C7 witness. -/
def rowDone : OutboxRecord :=
  { id := 1, event_id := "evt-2", event_type := "UPDATE_LEADS", aggregate_type := "leads",
    aggregate_id := "a2", payload := {}, created_at := 4, retry_count := 0,
    processed_at := some 5, published_at := some 5 }

/-- Store whose only outbox row is already processed. -/
def stC7 : SysState := { db := { outbox := [rowDone] } }

/-- Two unprocessed outbox rows for the C6 witness. -/
def rowF1 : OutboxRecord :=
  { id := 1, event_id := "evt-3", event_type := "INSERT_LEADS", aggregate_type := "leads",
    aggregate_id := "a3", payload := {}, created_at := 1, retry_count := 0 }

/-- Second unprocessed outbox row for the C6 witness. -/
def rowF2 : OutboxRecord :=
  { id := 2, event_id := "evt-4", event_type := "INSERT_LEADS", aggregate_type := "leads",
    aggregate_id := "a4", payload := {}, created_at := 2, retry_count := 0 }

/-- Store with the two claimable rows. -/
def stC6 : SysState := { db := { outbox := [rowF1, rowF2] } }

theorem processed_incEventCount (d : Date) (et aggTy : String) (db : DB) :
    (incEventCount d et aggTy db).processed = db.processed := by
  unfold incEventCount; split <;> rfl

theorem processed_upsertFunnel (db : DB) (m : LeadFunnelMetric) :
    (upsertFunnel db m).processed = db.processed := by
  unfold upsertFunnel; split <;> rfl

theorem processed_upsertRevenue (db : DB) (monthStart : Date) (acct : String) (cv : Int) :
    (upsertRevenue db monthStart acct cv).processed = db.processed := by
  unfold upsertRevenue; split <;> rfl

theorem processed_process_lead_event (et : String) (p : Payload) (d : Date) (db : DB) :
    (process_lead_event et p d db).processed = db.processed := by
  unfold process_lead_event
  split <;> simp [processed_upsertFunnel]

theorem processed_process_project_event (p : Payload) (d : Date) (db : DB) :
    (process_project_event p d db).processed = db.processed := by
  unfold process_project_event
  cases p.account_id with
  | none => rfl
  | some acct =>
    dsimp only
    split
    · rfl
    · exact processed_upsertRevenue ..

theorem processed_dispatchHandler (aggTy et : String) (p : Payload) (d : Date) (db : DB) :
    (dispatchHandler aggTy et p d db).processed = db.processed := by
  unfold dispatchHandler
  split
  · exact processed_process_lead_event ..
  split
  · rfl
  split
  · exact processed_process_project_event ..
  split <;> rfl

/-- C1: if a call to process_event for event_id E completes with success,
then exactly one ProcessedEvent row for E exists afterwards, and any second
call with the same event_id returns skipped_duplicate and leaves the whole
system state unchanged (no metric mutation, no other side effect). -/
theorem process_event_idempotent
    (cfg : Config) (today : Date) (e : Event) (rc : Nat) (fault : Option BodyFault)
    (archiveOk : Bool) (st st1 : SysState)
    (h : process_event cfg today e rc fault archiveOk st = (st1, Outcome.success)) :
    (st1.db.processed.filter (fun pr => pr.event_id == e.event_id)).length = 1 ∧
    ∀ cfg2 today2 e2 rc2 fault2 archiveOk2, e2.event_id = e.event_id →
      process_event cfg2 today2 e2 rc2 fault2 archiveOk2 st1 =
        (st1, Outcome.skipped_duplicate) := by
  unfold process_event at h
  split at h
  case isTrue hdup => simp at h
  case isFalse hdup =>
    rcases hrb : runBody cfg today e fault archiveOk st.db st.s3 with ⟨s3a, r⟩
    rw [hrb] at h
    cases r with
    | error msg =>
      simp only at h
      split at h
      · simp at h
      · split at h <;> simp at h
    | ok db1 =>
      simp only at h
      obtain ⟨hst1, -⟩ := Prod.mk.injEq .. ▸ h
      -- analyze runBody success
      unfold runBody at hrb
      match fault with
      | some ⟨FaultPoint.atEventCount, m⟩ => simp at hrb
      | some ⟨FaultPoint.atHandler, m⟩ => simp at hrb
      | some ⟨FaultPoint.atLedger, m⟩ => simp at hrb
      | none =>
        simp only at hrb
        split at hrb
        · simp at hrb
        case isFalse hdup2 =>
          obtain ⟨hs3, hdb1⟩ := Prod.mk.injEq .. ▸ hrb
          injection hdb1 with hdb
          have hpr : db1.processed = st.db.processed ++ [mkProcessed e] := by
            rw [← hdb]
            simp [processed_dispatchHandler, processed_incEventCount]
          have hnone : ∀ pr ∈ st.db.processed, ¬(pr.event_id == e.event_id) = true := by
            intro pr hmem hbeq
            exact hdup (List.any_eq_true.mpr ⟨pr, hmem, hbeq⟩)
          have hany : ∀ eid, eid = e.event_id →
              (st1.db.processed.any fun pr => pr.event_id == eid) = true := by
            intro eid heid
            rw [← hst1]
            refine List.any_eq_true.mpr ⟨mkProcessed e, ?_, ?_⟩
            · show mkProcessed e ∈ db1.processed
              rw [hpr]
              exact List.mem_append_right _ (List.mem_singleton_self _)
            · simp [mkProcessed, heid]
          constructor
          · rw [← hst1]
            show (db1.processed.filter fun pr => pr.event_id == e.event_id).length = 1
            rw [hpr, List.filter_append, List.filter_eq_nil_iff.mpr hnone]
            simp [mkProcessed]
          · intro cfg2 today2 e2 rc2 fault2 archiveOk2 he2
            unfold process_event
            simp [hany e2.event_id he2]

/-- C1 witness: the won-lead event processed from the empty state, then
reprocessed. -/
theorem process_event_idempotent_witness :
    ((process_event cfg0 d0 eWon 0 none true {}).1.db.processed.filter
      (fun pr => pr.event_id == eWon.event_id)).length = 1 ∧
    process_event cfg0 d0 eWon 1 none true (process_event cfg0 d0 eWon 0 none true {}).1 =
      ((process_event cfg0 d0 eWon 0 none true {}).1, Outcome.skipped_duplicate) := by
  have h := process_event_idempotent cfg0 d0 eWon 0 none true {} _ rfl
  exact ⟨h.1, h.2 cfg0 d0 eWon 1 none true rfl⟩

/-- C2: when an exception fires anywhere in the transactional body, none of
the transactional writes persists: the ProcessedEvent ledger, EventCount,
LeadFunnelMetric and RevenueMetric tables are all left exactly as before
the call, so a ProcessedEvent row can never exist without its metrics. -/
theorem transaction_atomicity
    (cfg : Config) (today : Date) (e : Event) (rc : Nat) (bf : BodyFault)
    (archiveOk : Bool) (st : SysState) :
    (process_event cfg today e rc (some bf) archiveOk st).1.db.processed = st.db.processed ∧
    (process_event cfg today e rc (some bf) archiveOk st).1.db.eventCounts = st.db.eventCounts ∧
    (process_event cfg today e rc (some bf) archiveOk st).1.db.leadFunnel = st.db.leadFunnel ∧
    (process_event cfg today e rc (some bf) archiveOk st).1.db.revenue = st.db.revenue := by
  obtain ⟨pt, m⟩ := bf
  cases pt
  all_goals
    simp only [process_event, runBody]
    split
    · exact ⟨rfl, rfl, rfl, rfl⟩
    · split
      · exact ⟨rfl, rfl, rfl, rfl⟩
      · split
        · exact ⟨rfl, rfl, rfl, rfl⟩
        · exact ⟨rfl, rfl, rfl, rfl⟩

/-- C3, evidence of the bug: with a bucket configured, an exception at the
ledger insert aborts the transaction (no ProcessedEvent row committed, the
outcome is a scheduled retry), yet the S3 archive object has already been
written, because the _archive_to_s3 call sits inside the transaction.atomic
block before the ProcessedEvent insert; conversely, an archive failure alone
never fails processing (the event still succeeds). -/
theorem archive_inside_transaction :
    (process_event cfg0 d0 eWon 0 (some ⟨FaultPoint.atLedger, "db down"⟩) true {}).1.s3 =
      [mkArchive d0 eWon] ∧
    (process_event cfg0 d0 eWon 0 (some ⟨FaultPoint.atLedger, "db down"⟩) true {}).1.db.processed =
      [] ∧
    (process_event cfg0 d0 eWon 0 (some ⟨FaultPoint.atLedger, "db down"⟩) true {}).2 =
      Outcome.retry_scheduled ∧
    (process_event cfg0 d0 eWon 0 none false {}).2 = Outcome.success :=
  ⟨rfl, rfl, rfl, rfl⟩

theorem processed_any_eq_false (l : List ProcessedEvent) (eid : String)
    (h : ∀ pr ∈ l, pr.event_id ≠ eid) :
    (l.any fun pr => pr.event_id == eid) = false := by
  rw [List.any_eq_false]
  intro pr hmem
  simp [h pr hmem]

theorem failed_any_eq_false (l : List FailedEvent) (eid : String)
    (h : ∀ f ∈ l, f.event_id ≠ eid) :
    (l.any fun f => f.event_id == eid) = false := by
  rw [List.any_eq_false]
  intro f hmem
  simp [h f hmem]

theorem failed_any_eq_true (l : List FailedEvent) (eid : String)
    (h : ∃ f ∈ l, f.event_id = eid) :
    (l.any fun f => f.event_id == eid) = true := by
  obtain ⟨f, hmem, heq⟩ := h
  exact List.any_eq_true.mpr ⟨f, hmem, by simp [heq]⟩

/-- C4 counterexample: invoked with retry_count 4 (which is at least
MAX_RETRIES, as after a publish-failure bump) on a raising body, the
dead-letter branch stores retry_count 4 in the FailedEvent, not
MAX_RETRIES. -/
theorem dead_letter_retry_count_cex :
    ((process_event cfg0 d0 eWon 4 (some ⟨FaultPoint.atHandler, "boom"⟩) true {}).1.db.failed.map
      (fun f => f.retry_count)) = [4] ∧
    (process_event cfg0 d0 eWon 4 (some ⟨FaultPoint.atHandler, "boom"⟩) true {}).2 =
      Outcome.dead_lettered ∧
    4 ≠ MAX_RETRIES :=
  ⟨rfl, rfl, by decide⟩

/-- C4 as amended: when the body raises with retry_count at least
MAX_RETRIES, and no FailedEvent row for this event_id exists yet (otherwise
the unique constraint raises instead), exactly one FailedEvent is appended,
capturing the error message, the trace, the invocation's retry_count and
the payload, still unresolved; the alert hook fires once with
(event_id, event_type, error_message); the outcome is dead_lettered and no
retry is scheduled. -/
theorem dead_letter_behavior
    (cfg : Config) (today : Date) (e : Event) (rc : Nat) (bf : BodyFault)
    (archiveOk : Bool) (st : SysState)
    (hrc : MAX_RETRIES ≤ rc)
    (hfail : ∀ f ∈ st.db.failed, f.event_id ≠ e.event_id)
    (hproc : ∀ pr ∈ st.db.processed, pr.event_id ≠ e.event_id) :
    (process_event cfg today e rc (some bf) archiveOk st).2 = Outcome.dead_lettered ∧
    (∃ fe, (process_event cfg today e rc (some bf) archiveOk st).1.db.failed =
        st.db.failed ++ [fe] ∧
      fe.event_id = e.event_id ∧ fe.error_message = bf.msg ∧
      fe.error_trace = "Traceback " ++ bf.msg ∧ fe.retry_count = rc ∧
      fe.payload = e.payload ∧ fe.resolved_at = none) ∧
    (process_event cfg today e rc (some bf) archiveOk st).1.alerts =
      st.alerts ++ [(e.event_id, e.event_type, bf.msg)] ∧
    (process_event cfg today e rc (some bf) archiveOk st).1.scheduled = st.scheduled := by
  obtain ⟨pt, m⟩ := bf
  have hprocB := processed_any_eq_false _ _ hproc
  have hfailB := failed_any_eq_false _ _ hfail
  have hnlt : ¬ rc < MAX_RETRIES := by omega
  cases pt
  all_goals
    simp only [process_event, runBody]
    simp only [hprocB, hfailB, hnlt, Bool.false_eq_true, if_false, ite_false]
    refine ⟨?_, ⟨mkFailed st.db e m rc, ?_, ?_, ?_, ?_, ?_, ?_, ?_⟩, ?_, ?_⟩ <;> trivial

/-- C4 witness: retry_count 3 on a clean store dead-letters and alerts. -/
theorem dead_letter_behavior_witness :
    (process_event cfg0 d0 eWon 3 (some ⟨FaultPoint.atHandler, "boom"⟩) true {}).2 =
      Outcome.dead_lettered ∧
    (process_event cfg0 d0 eWon 3 (some ⟨FaultPoint.atHandler, "boom"⟩) true {}).1.alerts =
      [("evt-1", "INSERT_LEADS", "boom")] ∧
    (process_event cfg0 d0 eWon 3 (some ⟨FaultPoint.atHandler, "boom"⟩) true {}).1.scheduled =
      [] := by
  have h := dead_letter_behavior cfg0 d0 eWon 3 ⟨FaultPoint.atHandler, "boom"⟩ true {}
    (by decide) (by simp) (by simp)
  exact ⟨h.1, by simpa using h.2.2.1, by simpa using h.2.2.2⟩

/-- C9 counterexample: with a resolved FailedEvent for evt-1 on file, a new
retry exhaustion for evt-1 creates no new FailedEvent record at all — the
insert hits the global unique constraint on event_id and the task raises. -/
theorem failed_event_unique_cex :
    (process_event cfg0 d0 eWon 3 (some ⟨FaultPoint.atHandler, "boom2"⟩) true stC9).1.db.failed =
      [fR9] ∧
    (process_event cfg0 d0 eWon 3 (some ⟨FaultPoint.atHandler, "boom2"⟩) true stC9).2 =
      Outcome.raised "IntegrityError duplicate failed event_id" :=
  ⟨rfl, rfl⟩

/-- C9 as amended: FailedEvent.event_id is unique across all rows, resolved
ones included, so a later retry exhaustion for an event_id that already has
a FailedEvent row inserts nothing (the dead-letter insert raises an
integrity error), leaves the failed table unchanged and fires no alert. -/
theorem failed_event_unique_rejects
    (cfg : Config) (today : Date) (e : Event) (rc : Nat) (bf : BodyFault)
    (archiveOk : Bool) (st : SysState)
    (hrc : MAX_RETRIES ≤ rc)
    (hex : ∃ f ∈ st.db.failed, f.event_id = e.event_id)
    (hproc : ∀ pr ∈ st.db.processed, pr.event_id ≠ e.event_id) :
    (process_event cfg today e rc (some bf) archiveOk st).1.db.failed = st.db.failed ∧
    (process_event cfg today e rc (some bf) archiveOk st).2 =
      Outcome.raised "IntegrityError duplicate failed event_id" ∧
    (process_event cfg today e rc (some bf) archiveOk st).1.alerts = st.alerts := by
  obtain ⟨pt, m⟩ := bf
  have hprocB := processed_any_eq_false _ _ hproc
  have hfailB := failed_any_eq_true _ _ hex
  have hnlt : ¬ rc < MAX_RETRIES := by omega
  cases pt
  all_goals
    simp only [process_event, runBody]
    simp only [hprocB, hfailB, hnlt, Bool.false_eq_true, if_false, ite_false,
      if_true, ite_true]
    refine ⟨?_, ?_, ?_⟩ <;> trivial

/-- C9 witness of the amended claim at a concrete store. -/
theorem failed_event_unique_rejects_witness :
    (process_event cfg0 d0 eWon 5 (some ⟨FaultPoint.atLedger, "x"⟩) true stC9).1.db.failed =
      [fR9] ∧
    (process_event cfg0 d0 eWon 5 (some ⟨FaultPoint.atLedger, "x"⟩) true stC9).2 =
      Outcome.raised "IntegrityError duplicate failed event_id" := by
  have h := failed_event_unique_rejects cfg0 d0 eWon 5 ⟨FaultPoint.atLedger, "x"⟩ true stC9
    (by decide) ⟨fR9, by decide, rfl⟩ (by simp [stC9])
  exact ⟨h.1, h.2.1⟩

/-- C5: replay returns not_found with an unchanged state when no FailedEvent
has the given surrogate id; otherwise it deletes every ProcessedEvent with
the failed event's event_id, dispatches reprocessing with retry_count 0,
stamps resolved_at and resolved_by on the FailedEvent (unconditionally,
before any reprocessing outcome exists, since dispatch is asynchronous) and
deletes no FailedEvent row. -/
theorem replay_spec (fid now : Nat) (st : SysState) :
    (st.db.failed.find? (fun f => f.id == fid) = none →
      replay_failed_event fid now st = (st, ReplayOutcome.not_found)) ∧
    ∀ fe, st.db.failed.find? (fun f => f.id == fid) = some fe →
      (replay_failed_event fid now st).2 = ReplayOutcome.replayed ∧
      (replay_failed_event fid now st).1.db.processed =
        st.db.processed.filter (fun pr => pr.event_id != fe.event_id) ∧
      (replay_failed_event fid now st).1.dispatched =
        st.dispatched ++ [(eventOfFailed fe, 0)] ∧
      (replay_failed_event fid now st).1.db.failed.length = st.db.failed.length ∧
      (∀ g ∈ (replay_failed_event fid now st).1.db.failed, g.id = fid →
        g.resolved_at = some now ∧ g.resolved_by = some "manual_replay") ∧
      ∃ g ∈ (replay_failed_event fid now st).1.db.failed, g.id = fid := by
  constructor
  · intro hnone
    unfold replay_failed_event
    rw [hnone]
  · intro fe hfe
    unfold replay_failed_event
    rw [hfe]
    dsimp only
    refine ⟨rfl, rfl, rfl, by simp, ?_, ?_⟩
    · intro g hg hid
      obtain ⟨g0, hg0, hgeq⟩ := List.mem_map.mp hg
      by_cases h0 : g0.id = fid
      · rw [← hgeq]
        simp [h0]
      · have hb : ¬ (g0.id == fid) = true := by simp [h0]
        rw [if_neg hb] at hgeq
        rw [← hgeq] at hid
        exact absurd hid h0
    · have hmem := List.mem_of_find?_eq_some hfe
      have hp : fe.id = fid := by
        have hb := List.find?_some hfe
        simpa using hb
      refine ⟨{ fe with resolved_at := some now, resolved_by := some "manual_replay" },
        ?_, ?_⟩
      · refine List.mem_map.mpr ⟨fe, hmem, ?_⟩
        rw [if_pos (show (fe.id == fid) = true by simp [hp])]
      · exact hp

/-- C5 witness: replaying id 7 clears the guard, keeps the FailedEvent and
stamps it resolved; replaying the absent id 1 returns not_found. -/
theorem replay_spec_witness :
    (replay_failed_event 7 100 stC5).2 = ReplayOutcome.replayed ∧
    (replay_failed_event 7 100 stC5).1.db.processed = [] ∧
    (replay_failed_event 7 100 stC5).1.db.failed.length = 1 ∧
    (replay_failed_event 1 100 stC5).2 = ReplayOutcome.not_found := by
  have h := (replay_spec 7 100 stC5).2 fR5 rfl
  have h2 := (replay_spec 1 100 stC5).1 rfl
  exact ⟨h.1, h.2.1.trans (by decide), h.2.2.2.1.trans (by decide), by rw [h2]⟩

theorem contains_eq_true_of_mem {l : List Nat} {a : Nat} (h : a ∈ l) :
    l.contains a = true :=
  List.elem_eq_true_of_mem h

theorem contains_eq_false_of_not_mem {l : List Nat} {a : Nat} (h : a ∉ l) :
    l.contains a = false := by
  cases hc : l.contains a
  · rfl
  · exact absurd (List.mem_of_elem_eq_true hc) h

theorem mem_claimBatch {c : OutboxRecord} {outbox : List OutboxRecord} {n : Nat}
    (h : c ∈ claimBatch outbox n) : c ∈ outbox ∧ c.processed_at = none := by
  unfold claimBatch at h
  have h1 : c ∈ List.insertionSort outboxLe (outbox.filter fun r => r.processed_at.isNone) :=
    (List.take_sublist _ _).subset h
  have h2 : c ∈ outbox.filter (fun r => r.processed_at.isNone) :=
    (List.perm_insertionSort outboxLe _).subset h1
  have h3 := List.mem_filter.mp h2
  exact ⟨h3.1, Option.isNone_iff_eq_none.mp h3.2⟩

/-- C7: every poll claims at most batch_size rows, drawn only from outbox
rows with processed_at still NULL, in (retry_count ASC, created_at ASC)
order — so previously bumped rows sort after fresh retry_count-0 rows — and
a poll that matches no rows returns 0 with the state untouched. -/
theorem poll_selection_spec (outbox : List OutboxRecord) (n : Nat) :
    (claimBatch outbox n).length ≤ n ∧
    (∀ c ∈ claimBatch outbox n, c ∈ outbox ∧ c.processed_at = none) ∧
    List.Sorted outboxLe (claimBatch outbox n) ∧
    ∀ cfg now publishOk err st,
      (∀ r ∈ st.db.outbox, r.processed_at ≠ none) →
      poll_event_outbox cfg now publishOk err st = (st, 0) := by
  refine ⟨List.length_take_le .., fun c hc => mem_claimBatch hc, ?_, ?_⟩
  · exact List.Pairwise.sublist (List.take_sublist _ _)
      (List.sorted_insertionSort outboxLe _)
  · intro cfg now publishOk err st hall
    have hfilter : st.db.outbox.filter (fun r => r.processed_at.isNone) = [] := by
      rw [List.filter_eq_nil_iff]
      intro r hr hNone
      exact hall r hr (Option.isNone_iff_eq_none.mp hNone)
    unfold poll_event_outbox claimBatch
    rw [hfilter]
    simp

/-- C7 witness: batch bound on a tiny store and the no-match poll. -/
theorem poll_selection_spec_witness :
    (claimBatch [rowDone] 3).length ≤ 3 ∧
    poll_event_outbox cfg0 9 true "e" stC7 = (stC7, 0) := by
  have h1 := (poll_selection_spec [rowDone] 3).1
  have h2 := (poll_selection_spec [rowDone] 3).2.2.2 cfg0 9 true "e" stC7 (by decide)
  exact ⟨h1, h2⟩

/-- C6: when the SQS publish for a claimed (nonempty) batch fails, poll
returns 0, marks no claimed row processed (their processed_at was and stays
NULL), stores each claimed row back with retry_count incremented by exactly
one and last_error set to the publish error, keeps every unclaimed row
unchanged, and dispatches nothing. -/
theorem publish_failure_spec (cfg : Config) (now : Nat) (err : String) (st : SysState)
    (hq : cfg.sqs_queue_url.isSome = true)
    (hne : claimBatch st.db.outbox cfg.event_batch_size ≠ []) :
    (poll_event_outbox cfg now false err st).2 = 0 ∧
    (∀ c ∈ claimBatch st.db.outbox cfg.event_batch_size,
      c.processed_at = none ∧
      { c with retry_count := c.retry_count + 1, last_error := some err } ∈
        (poll_event_outbox cfg now false err st).1.db.outbox) ∧
    (∀ r ∈ st.db.outbox,
      r.id ∉ (claimBatch st.db.outbox cfg.event_batch_size).map (fun x => x.id) →
      r ∈ (poll_event_outbox cfg now false err st).1.db.outbox) ∧
    (poll_event_outbox cfg now false err st).1.db.processed = st.db.processed ∧
    (poll_event_outbox cfg now false err st).1.dispatched = st.dispatched := by
  have hE : (claimBatch st.db.outbox cfg.event_batch_size).isEmpty = false :=
    List.isEmpty_eq_false.mpr hne
  simp only [poll_event_outbox, hE, Bool.false_eq_true, if_false, ite_false,
    Bool.not_false, Bool.and_true, hq, if_true, ite_true]
  refine ⟨?_, ?_, ?_, ?_, ?_⟩
  · trivial
  case refine_4 => trivial
  case refine_5 => trivial
  · intro c hc
    obtain ⟨hco, hcnull⟩ := mem_claimBatch hc
    refine ⟨hcnull, ?_⟩
    refine List.mem_map.mpr ⟨c, hco, ?_⟩
    rw [if_pos (contains_eq_true_of_mem (List.mem_map.mpr ⟨c, hc, rfl⟩))]
  · intro r hr hnot
    refine List.mem_map.mpr ⟨r, hr, ?_⟩
    rw [if_neg]
    rw [contains_eq_false_of_not_mem hnot]
    simp

/-- C6 witness: publish fails for the claimed batch of two rows. -/
theorem publish_failure_spec_witness :
    (poll_event_outbox cfg0 9 false "boom" stC6).2 = 0 ∧
    rowF1.processed_at = none ∧
    { rowF1 with retry_count := rowF1.retry_count + 1, last_error := some "boom" } ∈
      (poll_event_outbox cfg0 9 false "boom" stC6).1.db.outbox ∧
    (poll_event_outbox cfg0 9 false "boom" stC6).1.dispatched = [] := by
  have h := publish_failure_spec cfg0 9 "boom" stC6 rfl (by decide)
  have hmem : rowF1 ∈ claimBatch stC6.db.outbox cfg0.event_batch_size := by decide
  have h2 := h.2.1 rowF1 hmem
  exact ⟨h.1, h2.1, h2.2, h.2.2.2.2⟩

theorem process_fault_retry (cfg : Config) (today : Date) (e : Event) (rc : Nat)
    (pt : FaultPoint) (m : String) (archiveOk : Bool) (st : SysState)
    (hlt : rc < MAX_RETRIES)
    (hproc : (st.db.processed.any fun pr => pr.event_id == e.event_id) = false) :
    process_event cfg today e rc (some ⟨pt, m⟩) archiveOk st =
      ({ st with
           s3 := (runBody cfg today e (some ⟨pt, m⟩) archiveOk st.db st.s3).1,
           scheduled := st.scheduled ++
             [(e, rc + 1, RETRY_BACKOFF_SECONDS.getD rc 900)] },
       Outcome.retry_scheduled) := by
  cases pt <;>
    simp only [process_event, runBody, hproc, Bool.false_eq_true, if_false, ite_false,
      hlt, if_true, ite_true]

theorem process_fault_dead_eq (cfg : Config) (today : Date) (e : Event) (rc : Nat)
    (pt : FaultPoint) (m : String) (archiveOk : Bool) (st : SysState)
    (hnlt : ¬ rc < MAX_RETRIES)
    (hproc : (st.db.processed.any fun pr => pr.event_id == e.event_id) = false)
    (hfail : (st.db.failed.any fun f => f.event_id == e.event_id) = false) :
    process_event cfg today e rc (some ⟨pt, m⟩) archiveOk st =
      ({ st with
           s3 := (runBody cfg today e (some ⟨pt, m⟩) archiveOk st.db st.s3).1,
           db := { st.db with failed := st.db.failed ++ [mkFailed st.db e m rc] },
           alerts := st.alerts ++ [(e.event_id, e.event_type, m)] },
       Outcome.dead_lettered) := by
  cases pt <;>
    simp only [process_event, runBody, hproc, hfail, hnlt, Bool.false_eq_true,
      if_false, ite_false]

theorem simFail_dead (cfg : Config) (today : Date) (e : Event) (bf : BodyFault)
    (archiveOk : Bool) :
    ∀ fuel rc st, MAX_RETRIES - rc < fuel →
      (∀ pr ∈ st.db.processed, pr.event_id ≠ e.event_id) →
      (∀ f ∈ st.db.failed, f.event_id ≠ e.event_id) →
      ∃ stf, simFail cfg today e (some bf) archiveOk fuel rc st =
        some (stf, MAX_RETRIES - rc, Outcome.dead_lettered) := by
  obtain ⟨pt, m⟩ := bf
  intro fuel
  induction fuel with
  | zero => intro rc st h _ _; omega
  | succ fuel ih =>
    intro rc st hfuel hproc hfail
    have hprocB := processed_any_eq_false _ _ hproc
    by_cases hlt : rc < MAX_RETRIES
    · have heq := process_fault_retry cfg today e rc pt m archiveOk st hlt hprocB
      obtain ⟨stf, hrest⟩ := ih (rc + 1)
        { st with
            s3 := (runBody cfg today e (some ⟨pt, m⟩) archiveOk st.db st.s3).1,
            scheduled := st.scheduled ++
              [(e, rc + 1, RETRY_BACKOFF_SECONDS.getD rc 900)] }
        (by simp only [MAX_RETRIES] at *; omega) hproc hfail
      refine ⟨stf, ?_⟩
      simp only [simFail]
      rw [heq]
      simp only []
      rw [hrest]
      have harith : MAX_RETRIES - (rc + 1) + 1 = MAX_RETRIES - rc := by
        simp only [MAX_RETRIES] at *; omega
      simp [harith]
    · have hfailB := failed_any_eq_false _ _ hfail
      have heq := process_fault_dead_eq cfg today e rc pt m archiveOk st hlt hprocB hfailB
      refine ⟨{ st with
          s3 := (runBody cfg today e (some ⟨pt, m⟩) archiveOk st.db st.s3).1,
          db := { st.db with failed := st.db.failed ++ [mkFailed st.db e m rc] },
          alerts := st.alerts ++ [(e.event_id, e.event_type, m)] }, ?_⟩
      simp only [simFail]
      rw [heq]
      have h0 : MAX_RETRIES - rc = 0 := by simp only [MAX_RETRIES] at *; omega
      simp [h0]

/-- C10: poll hands each claimed row to process_event with the row's own
retry_count, and the processing retry chain starting at retry_count k
schedules exactly MAX_RETRIES - k further automatic retries before
dead-lettering when every attempt fails — zero of them (immediate
dead-letter on the first processing failure) as soon as k has reached
MAX_RETRIES through earlier publish-failure bumps. -/
theorem retry_budget_spec :
    (∀ cfg now err st,
      (poll_event_outbox cfg now true err st).1.dispatched =
        st.dispatched ++ (claimBatch st.db.outbox cfg.event_batch_size).map
          (fun r => (eventOf r, r.retry_count))) ∧
    ∀ cfg today e bf archiveOk k st,
      (∀ pr ∈ st.db.processed, pr.event_id ≠ e.event_id) →
      (∀ f ∈ st.db.failed, f.event_id ≠ e.event_id) →
      ∃ stf, simFail cfg today e (some bf) archiveOk (MAX_RETRIES + 1) k st =
        some (stf, MAX_RETRIES - k, Outcome.dead_lettered) := by
  constructor
  · intro cfg now err st
    by_cases hE : (claimBatch st.db.outbox cfg.event_batch_size).isEmpty = true
    · have hnil : claimBatch st.db.outbox cfg.event_batch_size = [] :=
        List.isEmpty_iff.mp hE
      simp [poll_event_outbox, hnil]
    · have hE' : (claimBatch st.db.outbox cfg.event_batch_size).isEmpty = false :=
        Bool.eq_false_iff.mpr hE
      simp only [poll_event_outbox, hE', Bool.false_eq_true, if_false, ite_false,
        Bool.not_true, Bool.and_false]
  · intro cfg today e bf archiveOk k st hproc hfail
    exact simFail_dead cfg today e bf archiveOk (MAX_RETRIES + 1) k st
      (by simp only [MAX_RETRIES]; omega) hproc hfail

/-- C10 witness: a chain started at retry_count 2 schedules exactly one
retry before dead-lettering, and poll dispatches a bumped row with its
stored retry_count. -/
theorem retry_budget_spec_witness :
    (∃ stf, simFail cfg0 d0 eWon (some ⟨FaultPoint.atHandler, "boom"⟩) true
      (MAX_RETRIES + 1) 2 {} = some (stf, 1, Outcome.dead_lettered)) ∧
    (poll_event_outbox cfg0 9 true "e" stC6).1.dispatched =
      [(eventOf rowF1, 0), (eventOf rowF2, 0)] := by
  constructor
  · have h := retry_budget_spec.2 cfg0 d0 eWon ⟨FaultPoint.atHandler, "boom"⟩ true 2 {}
      (by simp) (by simp)
    simpa using h
  · have h := retry_budget_spec.1 cfg0 9 "e" stC6
    rw [h]
    decide

theorem find?_map_update {α : Type} (p : α → Bool) (m : α) (l : List α)
    (hpm : p m = true) (h : l.any p = true) :
    (l.map (fun x => if p x then m else x)).find? p = some m := by
  induction l with
  | nil => simp at h
  | cons a t ih =>
    rw [List.map_cons]
    by_cases hpa : p a = true
    · rw [if_pos hpa]
      exact List.find?_cons_of_pos _ hpm
    · rw [if_neg hpa]
      rw [List.find?_cons_of_neg _ (by simpa using hpa)]
      apply ih
      rcases List.any_eq_true.mp h with ⟨x, hx, hpx⟩
      cases List.mem_cons.mp hx with
      | inl hxa => exact absurd (hxa ▸ hpx) hpa
      | inr hxt => exact List.any_eq_true.mpr ⟨x, hxt, hpx⟩

theorem find?_append_of_none {α : Type} (p : α → Bool) (l : List α) (m : α)
    (h : l.any p = false) (hpm : p m = true) :
    (l ++ [m]).find? p = some m := by
  induction l with
  | nil =>
    rw [List.nil_append]
    exact List.find?_cons_of_pos _ hpm
  | cons a t ih =>
    have h2 : p a = false ∧ t.any p = false := by
      rw [List.any_cons] at h
      exact Bool.or_eq_false_iff.mp h
    rw [List.cons_append, List.find?_cons_of_neg _ (by simp [h2.1])]
    exact ih h2.2

theorem funnel_date_getD (db : DB) (d : Date) :
    ((findFunnel db d).getD (defaultFunnel d)).date = d := by
  unfold findFunnel
  cases hf : db.leadFunnel.find? (fun m => m.date == d) with
  | none => rfl
  | some m =>
    have hb := List.find?_some hf
    simpa using hb

theorem findFunnel_upsertFunnel (db : DB) (m : LeadFunnelMetric) :
    findFunnel (upsertFunnel db m) m.date = some m := by
  unfold upsertFunnel findFunnel
  by_cases h : (db.leadFunnel.any fun x => x.date == m.date) = true
  · rw [if_pos h]
    exact find?_map_update _ m _ (by simp) h
  · rw [if_neg h]
    exact find?_append_of_none _ _ _ (Bool.eq_false_iff.mpr h) (by simp)

theorem findFunnel_upsertFunnel_of_date {db : DB} {m2 : LeadFunnelMetric} {d : Date}
    (hd : m2.date = d) :
    findFunnel (upsertFunnel db m2) d = some m2 := by
  have h := findFunnel_upsertFunnel db m2
  rw [hd] at h
  exact h

/-- C8 counterexample: an insert-shaped leads event whose lead_status is not
one of the five funnel statuses increments no funnel counter at all (the
counter sum stays 0), while estimated_value is still added to the total —
so the handler does not always increment exactly one matching counter. -/
theorem lead_handler_unknown_status_cex :
    ((findFunnel (process_lead_event "INSERT_LEADS"
        { lead_status := some "junk", estimated_value := some 7 } d0 {}) d0).getD
          (defaultFunnel d0)).new_leads +
      ((findFunnel (process_lead_event "INSERT_LEADS"
        { lead_status := some "junk", estimated_value := some 7 } d0 {}) d0).getD
          (defaultFunnel d0)).contacted_leads +
      ((findFunnel (process_lead_event "INSERT_LEADS"
        { lead_status := some "junk", estimated_value := some 7 } d0 {}) d0).getD
          (defaultFunnel d0)).qualified_leads +
      ((findFunnel (process_lead_event "INSERT_LEADS"
        { lead_status := some "junk", estimated_value := some 7 } d0 {}) d0).getD
          (defaultFunnel d0)).won_leads +
      ((findFunnel (process_lead_event "INSERT_LEADS"
        { lead_status := some "junk", estimated_value := some 7 } d0 {}) d0).getD
          (defaultFunnel d0)).lost_leads = 0 ∧
    ((findFunnel (process_lead_event "INSERT_LEADS"
        { lead_status := some "junk", estimated_value := some 7 } d0 {}) d0).getD
          (defaultFunnel d0)).total_estimated_value = 7 := by
  exact ⟨rfl, rfl⟩

/-- C8 as amended: on an insert- or update-shaped leads event, the handler
increments the funnel counter matching lead_status (default new) when that
status is one of new, contacted, qualified, won, lost, and no counter
otherwise; it always adds estimated_value (default 0) to
total_estimated_value and adds it to won_value exactly when the status is
won and to lost_value exactly when it is lost; the won-lead scenario and its
EventCount row come out as the claim states. -/
theorem lead_handler_spec (et : String) (p : Payload) (today : Date) (db : DB)
    (hshape : (strIn "INSERT" et || strIn "UPDATE" et) = true) :
    (∃ m', findFunnel (process_lead_event et p today db) today = some m' ∧
      (m'.new_leads = ((findFunnel db today).getD (defaultFunnel today)).new_leads +
        (if p.lead_status.getD "new" = "new" then 1 else 0) ∧
       m'.contacted_leads =
        ((findFunnel db today).getD (defaultFunnel today)).contacted_leads +
        (if p.lead_status.getD "new" = "contacted" then 1 else 0) ∧
       m'.qualified_leads =
        ((findFunnel db today).getD (defaultFunnel today)).qualified_leads +
        (if p.lead_status.getD "new" = "qualified" then 1 else 0) ∧
       m'.won_leads = ((findFunnel db today).getD (defaultFunnel today)).won_leads +
        (if p.lead_status.getD "new" = "won" then 1 else 0) ∧
       m'.lost_leads = ((findFunnel db today).getD (defaultFunnel today)).lost_leads +
        (if p.lead_status.getD "new" = "lost" then 1 else 0) ∧
       m'.total_estimated_value =
        ((findFunnel db today).getD (defaultFunnel today)).total_estimated_value +
        p.estimated_value.getD 0 ∧
       m'.won_value = ((findFunnel db today).getD (defaultFunnel today)).won_value +
        (if p.lead_status.getD "new" = "won" then p.estimated_value.getD 0 else 0) ∧
       m'.lost_value = ((findFunnel db today).getD (defaultFunnel today)).lost_value +
        (if p.lead_status.getD "new" = "lost" then p.estimated_value.getD 0 else 0))) ∧
    (process_event cfg0 d0 eWon 0 none true {}).2 = Outcome.success ∧
    findFunnel (process_event cfg0 d0 eWon 0 none true {}).1.db d0 =
      some { date := d0, won_leads := 1, total_estimated_value := 50000,
             won_value := 50000 } ∧
    (process_event cfg0 d0 eWon 0 none true {}).1.db.eventCounts =
      [{ date := d0, event_type := "INSERT_LEADS", aggregate_type := "leads",
         count := 1 }] := by
  refine ⟨?_, rfl, rfl, rfl⟩
  simp only [process_lead_event]
  rw [if_pos hshape]
  by_cases h1 : p.lead_status.getD "new" = "new"
  · simp +decide [h1]
    exact ⟨_, findFunnel_upsertFunnel_of_date (funnel_date_getD db today), by simp⟩
  by_cases h2 : p.lead_status.getD "new" = "contacted"
  · simp +decide [h1, h2]
    exact ⟨_, findFunnel_upsertFunnel_of_date (funnel_date_getD db today), by simp⟩
  by_cases h3 : p.lead_status.getD "new" = "qualified"
  · simp +decide [h1, h2, h3]
    exact ⟨_, findFunnel_upsertFunnel_of_date (funnel_date_getD db today), by simp⟩
  by_cases h4 : p.lead_status.getD "new" = "won"
  · simp +decide [h1, h2, h3, h4]
    exact ⟨_, findFunnel_upsertFunnel_of_date (funnel_date_getD db today), by simp⟩
  by_cases h5 : p.lead_status.getD "new" = "lost"
  · simp +decide [h1, h2, h3, h4, h5]
    exact ⟨_, findFunnel_upsertFunnel_of_date (funnel_date_getD db today), by simp⟩
  · simp +decide [h1, h2, h3, h4, h5]
    exact ⟨_, findFunnel_upsertFunnel_of_date (funnel_date_getD db today), by simp⟩

/-- C8 witness: the won-lead payload on the empty store. -/
theorem lead_handler_spec_witness :
    (∃ m', findFunnel (process_lead_event "INSERT_LEADS" pWon d0 {}) d0 = some m' ∧
      (m'.new_leads = ((findFunnel {} d0).getD (defaultFunnel d0)).new_leads +
        (if pWon.lead_status.getD "new" = "new" then 1 else 0) ∧
       m'.contacted_leads =
        ((findFunnel {} d0).getD (defaultFunnel d0)).contacted_leads +
        (if pWon.lead_status.getD "new" = "contacted" then 1 else 0) ∧
       m'.qualified_leads =
        ((findFunnel {} d0).getD (defaultFunnel d0)).qualified_leads +
        (if pWon.lead_status.getD "new" = "qualified" then 1 else 0) ∧
       m'.won_leads = ((findFunnel {} d0).getD (defaultFunnel d0)).won_leads +
        (if pWon.lead_status.getD "new" = "won" then 1 else 0) ∧
       m'.lost_leads = ((findFunnel {} d0).getD (defaultFunnel d0)).lost_leads +
        (if pWon.lead_status.getD "new" = "lost" then 1 else 0) ∧
       m'.total_estimated_value =
        ((findFunnel {} d0).getD (defaultFunnel d0)).total_estimated_value +
        pWon.estimated_value.getD 0 ∧
       m'.won_value = ((findFunnel {} d0).getD (defaultFunnel d0)).won_value +
        (if pWon.lead_status.getD "new" = "won" then pWon.estimated_value.getD 0 else 0) ∧
       m'.lost_value = ((findFunnel {} d0).getD (defaultFunnel d0)).lost_value +
        (if pWon.lead_status.getD "new" = "lost" then pWon.estimated_value.getD 0
         else 0))) ∧
    (process_event cfg0 d0 eWon 0 none true {}).2 = Outcome.success ∧
    findFunnel (process_event cfg0 d0 eWon 0 none true {}).1.db d0 =
      some { date := d0, won_leads := 1, total_estimated_value := 50000,
             won_value := 50000 } ∧
    (process_event cfg0 d0 eWon 0 none true {}).1.db.eventCounts =
      [{ date := d0, event_type := "INSERT_LEADS", aggregate_type := "leads",
         count := 1 }] :=
  lead_handler_spec "INSERT_LEADS" pWon d0 {} rfl

end CRM
